import Mathlib

/-!
Shallow embedding of the `magma` renderer core
(`src/engine/ctx/render/vulkan.rs` and `src/engine/ctx/draw_objects.rs`).

Entities carry the bit-flag set `{USED, VISIBLE}` and an 8-bit z-index;
the registry is the `draw_objects` vector of `GraphicsHandler`.  The
per-frame update `vulkan_loop` is embedded as a state-transition function
over an explicit renderer state, with the outcomes of the external GPU
operations (swapchain recreation, image acquisition, submission flush,
fence wait) supplied by an environment record, and with an event trace
recording the GPU-visible actions of the call.  Panics (`expect!`) are
modelled as an `Option String` in the result.
-/

namespace Magma

/-- The `DrawFlags` bitflags of `draw_objects.rs` (`USED = 1`, `VISIBLE = 2`),
modelled as two booleans. -/
structure DrawFlags where
  used : Bool
  visible : Bool
  deriving DecidableEq, Repr

/-- The two concrete implementors of the `Draw` trait: `Sprite` and `Primitive`. -/
inductive EntityKind where
  | sprite
  | primitive
  deriving DecidableEq, Repr

/-- A drawable entity of the registry.  `id` is the creation sequence number
(the ghost identity of the underlying `Rc<RefCell<_>>` cell); `z_index` is the
`u8` draw-order key; `flags` is the `DrawFlags` set. -/
structure Entity where
  id : Nat
  kind : EntityKind
  z_index : Nat
  flags : DrawFlags
  deriving DecidableEq, Repr

/-- `read_flags` of the `Draw` trait. -/
def Entity.read_flags (e : Entity) : DrawFlags := e.flags

/-- `get_z_index` of the `Draw` trait. -/
def Entity.get_z_index (e : Entity) : Nat := e.z_index

/-- `set_dead`: `self.draw_flags.remove(DrawFlags::USED)`. -/
def Entity.set_dead (e : Entity) : Entity :=
  { e with flags := { e.flags with used := false } }

/-- `set_visible`: `self.draw_flags.set(DrawFlags::VISIBLE, visible)`. -/
def Entity.set_visible (e : Entity) (visible : Bool) : Entity :=
  { e with flags := { e.flags with visible := visible } }

/-- The retained `previous_frame_end` GPU future: either `sync::now(device)`
(already satisfied) or the fence/flush future of a submitted frame. -/
inductive Signal where
  | now
  | frameFuture (n : Nat)
  deriving DecidableEq, Repr

/-- Outcome of `self.chain.recreate().dimensions(dimensions).build()`. -/
inductive RecreateOutcome where
  | success
  | unsupportedDimensions
  | otherFailure
  deriving DecidableEq, Repr

/-- Outcome of `swapchain::acquire_next_image(chain, None)`. -/
inductive AcquireOutcome where
  | ok (image_num : Nat) (suboptimal : Bool)
  | outOfDate
  | otherFailure
  deriving DecidableEq, Repr

/-- Outcome of `then_signal_fence_and_flush()`. -/
inductive FlushOutcome where
  | ok
  | outOfDate
  | otherFailure
  deriving DecidableEq, Repr

/-- Outcome of `future.wait(Some(Duration::from_secs(10)))`. -/
inductive WaitOutcome where
  | ok
  | timeout
  deriving DecidableEq, Repr

/-- The externally-determined outcomes of one `vulkan_loop` call. -/
structure Env where
  recreate : RecreateOutcome
  acquire : AcquireOutcome
  flush : FlushOutcome
  wait : WaitOutcome
  deriving DecidableEq, Repr

/-- GPU-visible actions performed during one `vulkan_loop` call, in order. -/
inductive Event where
  | acquireImage
  | draw (e : Entity) (pipeline : String)
  | submit
  | waitBlocked (timeout_secs : Nat)
  deriving DecidableEq, Repr

/-- The state of `GraphicsHandler` (plus the `must_recreate` flag of its
`SwapchainHandler`) that the claims are about.  `swapchain_gen` and
`framebuffers_gen` abstract the identity of the swapchain/images and of the
framebuffer vector (bumped on every successful rebuild);
`buffer_window_size` is the `window_size` field of the GPU-visible
`global_uniform_buffer`; `frame_counter` names successive frame futures. -/
structure GraphicsState where
  draw_objects : List Entity
  pipelines : List String
  must_recreate : Bool
  swapchain_gen : Nat
  framebuffers_gen : Nat
  previous_frame_end : Signal
  window_size : Nat × Nat
  buffer_window_size : Nat × Nat
  frame_counter : Nat
  deriving DecidableEq, Repr

/-- Result of one `vulkan_loop` call: the final state, the trace of GPU
actions, and `some msg` when the call panicked. -/
structure LoopResult where
  state : GraphicsState
  events : List Event
  panic : Option String
  deriving DecidableEq, Repr

/-- The pipeline names registered by `GraphicsHandler::new`
(`create_pipeline!("Primitive", ...)` then `create_pipeline!("Sprite", ...)`). -/
def initial_pipelines : List String := ["Primitive", "Sprite"]

/-- `GraphicsHandler::get_pipeline`: `HashMap` lookup whose `expect` panic is
modelled by `none`. -/
def get_pipeline (pipelines : List String) (name : String) : Option String :=
  if name ∈ pipelines then some name else none

/-- The pipeline name `impl Draw for Sprite` passes to `get_pipeline`. -/
def Sprite.draw_pipeline : String := "Sprite"

/-- The pipeline name `impl Draw for Primitive` passes to `get_pipeline`
(the source's `Primitive::draw` calls `gl_handler.get_pipeline("Sprite")`). -/
def Primitive.draw_pipeline : String := "Sprite"

/-- Pipeline name used by the `draw` implementation of each entity kind. -/
def draw_pipeline_name : EntityKind → String
  | .sprite => Sprite.draw_pipeline
  | .primitive => Primitive.draw_pipeline

/-- Record the per-entity indexed draw calls for the visible entities, in
order: each entity's `draw` looks up its pipeline and issues `draw_indexed`;
an unknown pipeline name panics (second component `some msg`). -/
def record_draws (pipelines : List String) : List Entity → List Event × Option String
  | [] => ([], none)
  | o :: os =>
    match get_pipeline pipelines (draw_pipeline_name o.kind) with
    | none => ([], some "No Vulkan Pipeline under this name was found")
    | some p =>
      let rest := record_draws pipelines os
      (Event.draw o p :: rest.1, rest.2)

/-- The timeout (in seconds) of the blocking wait on the new frame future. -/
def wait_timeout_secs : Nat := 10

/-- Result of `SwapchainHandler::check_and_recreate`. -/
inductive RecreateResult where
  | ok (s : GraphicsState)
  | softErr
  | panic (msg : String)
  deriving Repr

/-- `SwapchainHandler::check_and_recreate`: when `must_recreate` is set,
rebuild the chain against the window's current size; `UnsupportedDimensions`
is a soft `Err(())` that leaves all state (including `must_recreate`)
unchanged, any other failure panics, and success installs the new chain and
framebuffers and clears `must_recreate`. -/
def check_and_recreate (env : Env) (s : GraphicsState) : RecreateResult :=
  if s.must_recreate then
    match env.recreate with
    | .success =>
        .ok { s with
              swapchain_gen := s.swapchain_gen + 1
              framebuffers_gen := s.framebuffers_gen + 1
              must_recreate := false }
    | .unsupportedDimensions => .softErr
    | .otherFailure => .panic "Failed to recreate swapchain"
  else .ok s

/-- The tail of `vulkan_loop` from `then_signal_fence_and_flush()` on: `Ok`
blocks on the new future with the 10-second timeout (panicking on a timeout
or wait error) and retains it as `previous_frame_end`; `Err(OutOfDate)` sets
`must_recreate` and resets `previous_frame_end` to `sync::now`; any other
flush error is logged and resets `previous_frame_end` to `sync::now`.
`evs` is the trace accumulated up to (and including) the submission. -/
def frame_submission (env : Env) (s4 : GraphicsState) (evs : List Event) :
    LoopResult :=
  match env.flush with
  | .ok =>
    match env.wait with
    | .ok =>
        { state :=
            { s4 with
              previous_frame_end := Signal.frameFuture s4.frame_counter
              frame_counter := s4.frame_counter + 1 }
          events := evs ++ [Event.waitBlocked wait_timeout_secs]
          panic := none }
    | .timeout =>
        { state := s4
          events := evs ++ [Event.waitBlocked wait_timeout_secs]
          panic := some "GPU Timeout, terminating the program" }
  | .outOfDate =>
      { state :=
          { s4 with
            must_recreate := true
            previous_frame_end := Signal.now }
        events := evs
        panic := none }
  | .otherFailure =>
      { state := { s4 with previous_frame_end := Signal.now }
        events := evs
        panic := none }

/-- The part of `vulkan_loop` after a successful swapchain validation:
acquire the next image (`OutOfDate` sets `must_recreate` and returns, any
other failure panics), propagate a `suboptimal` result into `must_recreate`,
record one indexed draw call per `VISIBLE` entity in registry order, submit,
and handle the flush/wait results. -/
def acquire_and_render (env : Env) (s3 : GraphicsState) : LoopResult :=
  match env.acquire with
  | .outOfDate =>
      { state := { s3 with must_recreate := true }
        events := [Event.acquireImage]
        panic := none }
  | .otherFailure =>
      { state := s3
        events := [Event.acquireImage]
        panic := some "Couldn't acquire next image from Vulkan Swapchain" }
  | .ok _image_num suboptimal =>
    let s4 : GraphicsState := { s3 with must_recreate := suboptimal }
    let draws :=
      record_draws s4.pipelines
        (s4.draw_objects.filter (fun o => o.read_flags.visible))
    match draws.2 with
    | some msg =>
        { state := s4
          events := Event.acquireImage :: draws.1
          panic := some msg }
    | none =>
        frame_submission env s4 (Event.acquireImage :: draws.1 ++ [Event.submit])

/-- `GraphicsHandler::vulkan_loop`, embedded step by step from the source:
1. `retain` the `USED` entities, `flush_global_data` (writes the stored
   `window_size` into the GPU-visible buffer), flush each entity's data;
2. on `resized`, store the window's current size and force recreation,
   otherwise keep the pending `must_recreate` value;
3. `check_and_recreate`: a soft failure returns early with no GPU work;
4. otherwise `acquire_and_render` performs the acquire → record → submit →
   wait sequence. -/
def vulkan_loop (env : Env) (resized : Bool) (win_size : Nat × Nat)
    (s0 : GraphicsState) : LoopResult :=
  let s2 : GraphicsState :=
    { s0 with
      draw_objects := s0.draw_objects.filter (fun o => o.read_flags.used)
      buffer_window_size := s0.window_size
      window_size := if resized then win_size else s0.window_size
      must_recreate := if resized then true else s0.must_recreate }
  match check_and_recreate env s2 with
  | .panic msg => { state := s2, events := [], panic := some msg }
  | .softErr => { state := s2, events := [], panic := none }
  | .ok s3 => acquire_and_render env s3

/-- `create_raw_swapchain`'s computation of the image count from the surface
capabilities (`caps.min_image_count` and `caps.max_image_count`). -/
def buffers_count (min_image_count : Nat) (max_image_count : Option Nat) : Nat :=
  match max_image_count with
  | none => max 2 min_image_count
  | some limit => min (max 2 min_image_count) limit

/-- `GraphicsHandler::sort_draw_objects`:
`self.draw_objects.sort_by(|a, b| a.get_z_index().cmp(&b.get_z_index()))`.
Rust's `sort_by` is a stable sort; it is embedded as the canonical stable
sort, insertion sort with the non-strict comparator on `z_index`. -/
def sort_draw_objects (objs : List Entity) : List Entity :=
  objs.insertionSort (fun a b => a.get_z_index ≤ b.get_z_index)

/-- `GraphicsHandler::append_draw_object`: push onto the vector, then sort. -/
def append_draw_object (objs : List Entity) (o : Entity) : List Entity :=
  sort_draw_objects (objs ++ [o])

/-- A freshly created entity (`Sprite::new` / the `Primitive` constructors all
insert `USED | VISIBLE` and take the caller's z-index); `i` is its creation
sequence number. -/
def mk_entity (i : Nat) (k : EntityKind) (z : Nat) : Entity :=
  { id := i, kind := k, z_index := z, flags := { used := true, visible := true } }

/-- Registry contents after creating, in order, one entity per element of
`zs` (kind and z-index), each via `append_draw_object`; `n` is the creation
counter for the ghost ids. -/
def build_registry : Nat → List (EntityKind × Nat) → List Entity → List Entity
  | _, [], acc => acc
  | n, z :: zs, acc =>
      build_registry (n + 1) zs (append_draw_object acc (mk_entity n z.1 z.2))

/-- The entities created by `build_registry n zs acc`, in creation order. -/
def created_entities : Nat → List (EntityKind × Nat) → List Entity
  | _, [] => []
  | n, z :: zs => mk_entity n z.1 z.2 :: created_entities (n + 1) zs

/-- `impl Drop for GraphicObject`: dropping the (last) external handle with
ghost identity `i` calls `set_dead` on the shared cell; the registry keeps
its (now dead) entry. -/
def drop_handle (registry : List Entity) (i : Nat) : List Entity :=
  registry.map (fun e => if e.id = i then e.set_dead else e)

/-- Insertion of a newly appended entity into a z-sorted list, after every
entity of z-index less than or equal to its own (the position Rust's stable
`sort_by` gives the element pushed at the end of the vector). -/
def insert_after_ties (x : Entity) : List Entity → List Entity
  | [] => [x]
  | y :: ys =>
    if y.get_z_index ≤ x.get_z_index then y :: insert_after_ties x ys
    else x :: y :: ys

/-- Draw order refined by creation order: strictly earlier z-index, or equal
z-index and strictly earlier creation. -/
def z_creation_order (a b : Entity) : Prop :=
  a.z_index < b.z_index ∨ (a.z_index = b.z_index ∧ a.id < b.id)

/-- A concrete steady-state renderer state with one live, visible sprite. -/
def ex_state : GraphicsState :=
  { draw_objects := [mk_entity 0 .sprite 1]
    pipelines := initial_pipelines
    must_recreate := false
    swapchain_gen := 0
    framebuffers_gen := 0
    previous_frame_end := Signal.now
    window_size := (800, 600)
    buffer_window_size := (800, 600)
    frame_counter := 0 }

/-- An environment in which every GPU operation succeeds. -/
def ex_env_ok : Env :=
  { recreate := .success
    acquire := .ok 0 false
    flush := .ok
    wait := .ok }

/-- A state with a recreation still pending from an earlier frame. -/
def ex_state_pending : GraphicsState := { ex_state with must_recreate := true }

/-- An environment whose swapchain rebuild fails on unsupported dimensions. -/
def ex_env_unsupported : Env :=
  { ex_env_ok with recreate := .unsupportedDimensions }

/-- An environment whose image acquisition reports out-of-date. -/
def ex_env_acq_ood : Env := { ex_env_ok with acquire := .outOfDate }

/-- An environment whose submission flush reports out-of-date. -/
def ex_env_flush_ood : Env := { ex_env_ok with flush := .outOfDate }

/-- A live, visible primitive entity. -/
def prim_entity : Entity := mk_entity 0 EntityKind.primitive 5

/-- `ex_state` with the sprite replaced by a primitive entity. -/
def prim_state : GraphicsState := { ex_state with draw_objects := [prim_entity] }

/-! ## Helper lemmas -/

theorem get_pipeline_some {ps : List String} {name p : String}
    (h : get_pipeline ps name = some p) : p = name ∧ name ∈ ps := by
  unfold get_pipeline at h
  split at h
  · exact ⟨(Option.some.injEq _ _ ▸ h).symm, by assumption⟩
  · exact absurd h (by simp)

theorem get_pipeline_not_mem {ps : List String} {name : String}
    (h : name ∉ ps) : get_pipeline ps name = none := by
  unfold get_pipeline
  simp [h]

theorem draw_pipeline_name_eq (k : EntityKind) : draw_pipeline_name k = "Sprite" := by
  cases k <;> rfl

theorem record_draws_mem {ps : List String} :
    ∀ {l : List Entity} {e : Entity} {p : String},
      Event.draw e p ∈ (record_draws ps l).1 → e ∈ l ∧ p = "Sprite"
  | [], e, p, h => by simp [record_draws] at h
  | o :: os, e, p, h => by
    unfold record_draws at h
    cases hg : get_pipeline ps (draw_pipeline_name o.kind) with
    | none => rw [hg] at h; simp at h
    | some q =>
      rw [hg] at h
      simp only [List.mem_cons] at h
      rcases h with h | h
      · obtain ⟨he, hp⟩ := Event.draw.injEq .. ▸ h
        refine ⟨by simp [he], ?_⟩
        rw [hp, (get_pipeline_some hg).1, draw_pipeline_name_eq]
      · obtain ⟨hmem, hp⟩ := record_draws_mem h
        exact ⟨List.mem_cons_of_mem _ hmem, hp⟩

theorem record_draws_no_panic {ps : List String} (hs : "Sprite" ∈ ps) :
    ∀ (l : List Entity), (record_draws ps l).2 = none
  | [] => rfl
  | o :: os => by
    unfold record_draws
    cases hg : get_pipeline ps (draw_pipeline_name o.kind) with
    | none =>
      rw [draw_pipeline_name_eq, get_pipeline] at hg
      simp [hs] at hg
    | some q => simpa using record_draws_no_panic hs os

theorem check_and_recreate_ok {env : Env} {s s' : GraphicsState}
    (h : check_and_recreate env s = .ok s') :
    s'.draw_objects = s.draw_objects ∧ s'.pipelines = s.pipelines ∧
      s'.previous_frame_end = s.previous_frame_end ∧
      s'.window_size = s.window_size ∧
      s'.buffer_window_size = s.buffer_window_size ∧
      s'.frame_counter = s.frame_counter := by
  unfold check_and_recreate at h
  split at h
  · split at h
    · cases h; simp
    · cases h
    · cases h
  · cases h; simp

theorem check_and_recreate_not_pending (env : Env) {s : GraphicsState}
    (h : s.must_recreate = false) : check_and_recreate env s = .ok s := by
  unfold check_and_recreate
  simp [h]

/-- The events of `frame_submission` are the given prefix plus possibly the
blocking-wait marker: no draw event is added after submission. -/
theorem frame_submission_events (env : Env) (s4 : GraphicsState)
    (evs : List Event) :
    (frame_submission env s4 evs).events = evs ∨
      (frame_submission env s4 evs).events =
        evs ++ [Event.waitBlocked wait_timeout_secs] := by
  unfold frame_submission
  cases env.flush
  · cases env.wait <;> simp
  · simp
  · simp

/-- `frame_submission` does not touch the registry, the pipelines, the stored
window size, or the GPU-visible window size. -/
theorem frame_submission_state (env : Env) (s4 : GraphicsState)
    (evs : List Event) :
    (frame_submission env s4 evs).state.draw_objects = s4.draw_objects ∧
      (frame_submission env s4 evs).state.pipelines = s4.pipelines ∧
      (frame_submission env s4 evs).state.window_size = s4.window_size ∧
      (frame_submission env s4 evs).state.buffer_window_size =
        s4.buffer_window_size := by
  unfold frame_submission
  cases env.flush
  · cases env.wait <;> simp
  · simp
  · simp

/-- Every draw event of `acquire_and_render` concerns a `VISIBLE` entity of
the given registry and binds the pipeline `"Sprite"`. -/
theorem acquire_and_render_draw_event {env : Env} {s3 : GraphicsState}
    {e : Entity} {p : String}
    (h : Event.draw e p ∈ (acquire_and_render env s3).events) :
    e ∈ s3.draw_objects ∧ e.read_flags.visible = true ∧ p = "Sprite" := by
  have key : ∀ {evs : List Event},
      Event.draw e p ∈ evs →
      evs = (record_draws s3.pipelines
          (s3.draw_objects.filter (fun o => o.read_flags.visible))).1 →
      e ∈ s3.draw_objects ∧ e.read_flags.visible = true ∧ p = "Sprite" := by
    intro evs hmem hevs
    subst hevs
    obtain ⟨hin, hp⟩ := record_draws_mem hmem
    rw [List.mem_filter] at hin
    exact ⟨hin.1, hin.2, hp⟩
  unfold acquire_and_render at h
  cases hacq : env.acquire with
  | outOfDate => rw [hacq] at h; simp at h
  | otherFailure => rw [hacq] at h; simp at h
  | ok n subopt =>
    rw [hacq] at h
    simp only at h
    split at h
    · simp only [LoopResult.events, List.mem_cons] at h
      rcases h with h | h
      · cases h
      · exact key h (by rfl)
    · have hd : Event.draw e p ∈
          (record_draws s3.pipelines
            (s3.draw_objects.filter (fun o => o.read_flags.visible))).1 := by
        rcases frame_submission_events env _ _ with hev | hev <;>
          rw [hev] at h <;> simpa using h
      exact key hd rfl

/-- `acquire_and_render` never changes the registry, the pipelines, the
stored window size, or the GPU-visible window size. -/
theorem acquire_and_render_state (env : Env) (s3 : GraphicsState) :
    (acquire_and_render env s3).state.draw_objects = s3.draw_objects ∧
      (acquire_and_render env s3).state.pipelines = s3.pipelines ∧
      (acquire_and_render env s3).state.window_size = s3.window_size ∧
      (acquire_and_render env s3).state.buffer_window_size =
        s3.buffer_window_size := by
  unfold acquire_and_render
  cases env.acquire
  case outOfDate => simp
  case otherFailure => simp
  case ok n sub =>
    simp only
    split
    · simp
    · rcases frame_submission_state env _ _ with ⟨a, b, c, d⟩
      exact ⟨by rw [a], by rw [b], by rw [c], by rw [d]⟩

/-- After any `vulkan_loop` call, the registry is exactly the `USED` part of
the incoming registry: the `retain` at the start of the call is the single
reclamation point, and no later step touches the list. -/
theorem vulkan_loop_registry (env : Env) (resized : Bool) (win : Nat × Nat)
    (s : GraphicsState) :
    (vulkan_loop env resized win s).state.draw_objects =
      s.draw_objects.filter (fun o => o.read_flags.used) := by
  unfold vulkan_loop
  simp only
  split
  · simp
  · simp
  case _ s3 hcr =>
    have h1 := (check_and_recreate_ok hcr).1
    have h2 := (acquire_and_render_state env s3).1
    rw [h2, h1]

/-- The global-uniform flush happens before the resize is resolved: the
GPU-visible window size after the call is the size stored at entry, while
the stored size is the window's current size when `resized` is set. -/
theorem vulkan_loop_window_fields (env : Env) (resized : Bool)
    (win : Nat × Nat) (s : GraphicsState) :
    (vulkan_loop env resized win s).state.buffer_window_size = s.window_size ∧
      (vulkan_loop env resized win s).state.window_size =
        (if resized then win else s.window_size) := by
  unfold vulkan_loop
  simp only
  split
  · simp
  · simp
  case _ s3 hcr =>
    have hw := (check_and_recreate_ok hcr).2.2.2.1
    have hb := (check_and_recreate_ok hcr).2.2.2.2.1
    have h3 := (acquire_and_render_state env s3).2.2.1
    have h4 := (acquire_and_render_state env s3).2.2.2
    constructor
    · rw [h4, hb]
    · rw [h3, hw]

/-- Every draw event of a `vulkan_loop` call concerns an entity of the
incoming registry with both flags set, and binds the pipeline `"Sprite"`. -/
theorem vulkan_loop_draw_event {env : Env} {resized : Bool}
    {win : Nat × Nat} {s : GraphicsState} {e : Entity} {p : String}
    (h : Event.draw e p ∈ (vulkan_loop env resized win s).events) :
    e ∈ s.draw_objects ∧ e.flags.used = true ∧ e.flags.visible = true ∧
      p = "Sprite" := by
  unfold vulkan_loop at h
  simp only at h
  split at h
  · simp at h
  · simp at h
  case _ s3 hcr =>
    obtain ⟨he, hv, hp⟩ := acquire_and_render_draw_event h
    rw [(check_and_recreate_ok hcr).1] at he
    simp only at he
    rw [List.mem_filter] at he
    exact ⟨he.1, by simpa [Entity.read_flags] using he.2,
      by simpa [Entity.read_flags] using hv, hp⟩

/-! ## Claim theorems -/

/-- C1.  No entity whose `USED` flag is unset is ever submitted to a draw
call during `vulkan_loop`: every recorded draw concerns an entity that has
both `USED` and `VISIBLE` set. -/
theorem vulkan_loop_no_dead_draws {env : Env} {resized : Bool}
    {win : Nat × Nat} {s : GraphicsState} {e : Entity} {p : String}
    (h : Event.draw e p ∈ (vulkan_loop env resized win s).events) :
    e.flags.used = true ∧ e.flags.visible = true :=
  ⟨(vulkan_loop_draw_event h).2.1, (vulkan_loop_draw_event h).2.2.1⟩

theorem vulkan_loop_no_dead_draws_witness :
    (mk_entity 0 .sprite 1).flags.used = true ∧
      (mk_entity 0 .sprite 1).flags.visible = true :=
  @vulkan_loop_no_dead_draws ex_env_ok false (800, 600) ex_state
    (mk_entity 0 .sprite 1) "Sprite" (by decide)

/-- C9.  The swapchain image count is `max 2 min_image_count` when the
capabilities report no maximum, and `min (max 2 min_image_count) limit`
otherwise; in particular `(min = 2, max = 3)` gives 2 and `(min = 4, no max)`
gives 4. -/
theorem buffers_count_spec :
    (∀ mic : Nat, buffers_count mic none = max 2 mic) ∧
      (∀ mic limit : Nat,
        buffers_count mic (some limit) = min (max 2 mic) limit) ∧
      buffers_count 2 (some 3) = 2 ∧ buffers_count 4 none = 4 :=
  ⟨fun _ => rfl, fun _ _ => rfl, rfl, rfl⟩

/-- C10.  On a resized frame, the window size flushed to the GPU-visible
global uniform buffer is the size stored before the call; the stored size is
updated to the window's current size only after the flush, so the new size
first reaches the buffer on the following call. -/
theorem vulkan_loop_resize_uniform_lag (env : Env) (win : Nat × Nat)
    (s : GraphicsState) :
    (vulkan_loop env true win s).state.buffer_window_size = s.window_size ∧
      (vulkan_loop env true win s).state.window_size = win ∧
      ∀ (env2 : Env) (r2 : Bool) (w2 : Nat × Nat),
        (vulkan_loop env2 r2 w2
            (vulkan_loop env true win s).state).state.buffer_window_size =
          win := by
  obtain ⟨hb, hw⟩ := vulkan_loop_window_fields env true win s
  have hw' : (vulkan_loop env true win s).state.window_size = win := by
    simpa using hw
  refine ⟨hb, hw', fun env2 r2 w2 => ?_⟩
  rw [(vulkan_loop_window_fields env2 r2 w2 _).1, hw']

/-- C5.  With a pending recreation, a rebuild failing on unsupported
dimensions makes `vulkan_loop` return early: no GPU event at all (no
acquisition, recording, or submission), no panic, `must_recreate` still set,
and the swapchain, framebuffers, retained signal, window size, pipelines and
frame counter unchanged (the registry holds the usual start-of-frame
reclamation result); any other rebuild failure panics. -/
theorem unsupported_dimensions_soft_skip {win : Nat × Nat}
    {s : GraphicsState} (hmr : s.must_recreate = true) :
    (∀ env : Env, env.recreate = .unsupportedDimensions →
      (vulkan_loop env false win s).panic = none ∧
      (vulkan_loop env false win s).events = [] ∧
      (vulkan_loop env false win s).state.must_recreate = true ∧
      (vulkan_loop env false win s).state.swapchain_gen = s.swapchain_gen ∧
      (vulkan_loop env false win s).state.framebuffers_gen =
        s.framebuffers_gen ∧
      (vulkan_loop env false win s).state.previous_frame_end =
        s.previous_frame_end ∧
      (vulkan_loop env false win s).state.window_size = s.window_size ∧
      (vulkan_loop env false win s).state.pipelines = s.pipelines ∧
      (vulkan_loop env false win s).state.frame_counter = s.frame_counter ∧
      (vulkan_loop env false win s).state.draw_objects =
        s.draw_objects.filter (fun o => o.read_flags.used)) ∧
    (∀ env : Env, env.recreate = .otherFailure →
      (vulkan_loop env false win s).panic ≠ none) := by
  constructor
  · intro env henv
    simp [vulkan_loop, check_and_recreate, hmr, henv]
  · intro env henv
    simp [vulkan_loop, check_and_recreate, hmr, henv]

theorem unsupported_dimensions_soft_skip_witness :
    (vulkan_loop ex_env_unsupported false (800, 600) ex_state_pending).events
        = [] ∧
      (vulkan_loop ex_env_unsupported false (800, 600)
          ex_state_pending).state.must_recreate = true :=
  ⟨((@unsupported_dimensions_soft_skip (800, 600) ex_state_pending
        (by decide)).1 ex_env_unsupported (by decide)).2.1,
    ((@unsupported_dimensions_soft_skip (800, 600) ex_state_pending
        (by decide)).1 ex_env_unsupported (by decide)).2.2.1⟩

/-- C6.  An out-of-date image acquire sets `must_recreate` and returns with
no panic, no submission, no draw, and the retained completion signal
untouched; any other acquire failure panics. -/
theorem acquire_out_of_date_skips {win : Nat × Nat} {s : GraphicsState}
    (hmr : s.must_recreate = false) :
    (∀ env : Env, env.acquire = .outOfDate →
      (vulkan_loop env false win s).panic = none ∧
      (vulkan_loop env false win s).state.must_recreate = true ∧
      (vulkan_loop env false win s).state.previous_frame_end =
        s.previous_frame_end ∧
      Event.submit ∉ (vulkan_loop env false win s).events ∧
      ∀ (e : Entity) (p : String),
        Event.draw e p ∉ (vulkan_loop env false win s).events) ∧
    (∀ env : Env, env.acquire = .otherFailure →
      (vulkan_loop env false win s).panic ≠ none) := by
  constructor
  · intro env henv
    simp [vulkan_loop, check_and_recreate, acquire_and_render, hmr, henv]
  · intro env henv
    simp [vulkan_loop, check_and_recreate, acquire_and_render, hmr, henv]

theorem acquire_out_of_date_skips_witness :
    (vulkan_loop ex_env_acq_ood false (800, 600) ex_state).panic = none ∧
      (vulkan_loop ex_env_acq_ood false (800, 600)
          ex_state).state.must_recreate = true ∧
      (vulkan_loop ex_env_acq_ood false (800, 600)
          ex_state).state.previous_frame_end = ex_state.previous_frame_end :=
  ⟨((@acquire_out_of_date_skips (800, 600) ex_state (by decide)).1
      ex_env_acq_ood (by decide)).1,
    ((@acquire_out_of_date_skips (800, 600) ex_state (by decide)).1
      ex_env_acq_ood (by decide)).2.1,
    ((@acquire_out_of_date_skips (800, 600) ex_state (by decide)).1
      ex_env_acq_ood (by decide)).2.2.1⟩

/-- C7.  A submission (fence-and-flush) failure never panics: out-of-date
sets `must_recreate`, any other flush error just resets the retained signal,
and in both cases `previous_frame_end` is the already-satisfied `sync::now`
when the call returns. -/
theorem submission_failure_recovers {win : Nat × Nat} {s : GraphicsState}
    (hmr : s.must_recreate = false) (hsp : "Sprite" ∈ s.pipelines) :
    (∀ (env : Env) (n : Nat) (sub : Bool), env.acquire = .ok n sub →
      env.flush = .outOfDate →
      (vulkan_loop env false win s).panic = none ∧
      (vulkan_loop env false win s).state.must_recreate = true ∧
      (vulkan_loop env false win s).state.previous_frame_end = Signal.now) ∧
    (∀ (env : Env) (n : Nat) (sub : Bool), env.acquire = .ok n sub →
      env.flush = .otherFailure →
      (vulkan_loop env false win s).panic = none ∧
      (vulkan_loop env false win s).state.previous_frame_end =
        Signal.now) := by
  have hrd := record_draws_no_panic hsp
  constructor
  · intro env n sub hacq hfl
    simp [vulkan_loop, check_and_recreate, acquire_and_render,
      frame_submission, hmr, hacq, hfl, hrd]
  · intro env n sub hacq hfl
    simp [vulkan_loop, check_and_recreate, acquire_and_render,
      frame_submission, hmr, hacq, hfl, hrd]

theorem submission_failure_recovers_witness :
    (vulkan_loop ex_env_flush_ood false (800, 600) ex_state).panic = none ∧
      (vulkan_loop ex_env_flush_ood false (800, 600)
          ex_state).state.previous_frame_end = Signal.now :=
  ⟨((@submission_failure_recovers (800, 600) ex_state (by decide)
        (by decide)).1 ex_env_flush_ood 0 false (by decide) (by decide)).1,
    ((@submission_failure_recovers (800, 600) ex_state (by decide)
        (by decide)).1 ex_env_flush_ood 0 false (by decide) (by decide)).2.2⟩

/-- C8.  On submission success the call blocks on the new completion signal
with the 10-second timeout before returning and retains it as the previous
frame's work; a wait timeout or failure panics. -/
theorem submission_success_waits {win : Nat × Nat} {s : GraphicsState}
    (hmr : s.must_recreate = false) (hsp : "Sprite" ∈ s.pipelines) :
    (∀ (env : Env) (n : Nat) (sub : Bool), env.acquire = .ok n sub →
      env.flush = .ok → env.wait = .ok →
      (vulkan_loop env false win s).panic = none ∧
      Event.waitBlocked 10 ∈ (vulkan_loop env false win s).events ∧
      (vulkan_loop env false win s).state.previous_frame_end =
        Signal.frameFuture s.frame_counter) ∧
    (∀ (env : Env) (n : Nat) (sub : Bool), env.acquire = .ok n sub →
      env.flush = .ok → env.wait = .timeout →
      (vulkan_loop env false win s).panic ≠ none) := by
  have hrd := record_draws_no_panic hsp
  constructor
  · intro env n sub hacq hfl hwa
    simp [vulkan_loop, check_and_recreate, acquire_and_render,
      frame_submission, wait_timeout_secs, hmr, hacq, hfl, hwa, hrd]
  · intro env n sub hacq hfl hwa
    simp [vulkan_loop, check_and_recreate, acquire_and_render,
      frame_submission, hmr, hacq, hfl, hwa, hrd]

theorem submission_success_waits_witness :
    (vulkan_loop ex_env_ok false (800, 600) ex_state).panic = none ∧
      Event.waitBlocked 10 ∈ (vulkan_loop ex_env_ok false (800, 600)
        ex_state).events ∧
      (vulkan_loop ex_env_ok false (800, 600)
          ex_state).state.previous_frame_end =
        Signal.frameFuture ex_state.frame_counter :=
  (@submission_success_waits (800, 600) ex_state (by decide) (by decide)).1
    ex_env_ok 0 false (by decide) (by decide) (by decide)

/-- C3.  Dropping the last external handle to an entity only clears its
`USED` flag: the registry entry survives the drop (every other field
untouched); after the reclamation pass at the start of the next
`vulkan_loop` call the entity is gone from the registry and from the draw
iteration. -/
theorem drop_handle_soft_delete {l : List Entity} {i : Nat} {e : Entity}
    (he : e ∈ l) (hid : e.id = i) :
    (drop_handle l i).length = l.length ∧
      e.set_dead ∈ drop_handle l i ∧
      e.set_dead.id = e.id ∧ e.set_dead.kind = e.kind ∧
      e.set_dead.z_index = e.z_index ∧
      e.set_dead.flags.visible = e.flags.visible ∧
      e.set_dead.flags.used = false ∧
      (∀ x ∈ l, x.id ≠ i → x ∈ drop_handle l i) ∧
      ∀ (env : Env) (resized : Bool) (win : Nat × Nat) (s : GraphicsState),
        s.draw_objects = drop_handle l i →
        (∀ x ∈ (vulkan_loop env resized win s).state.draw_objects,
          x.id ≠ i) ∧
        (∀ (e2 : Entity) (p : String),
          Event.draw e2 p ∈ (vulkan_loop env resized win s).events →
            e2.id ≠ i) := by
  have hkey : ∀ x ∈ drop_handle l i, x.id = i → x.flags.used = false := by
    intro x hx hxid
    obtain ⟨y, hy, hfy⟩ := List.mem_map.mp hx
    by_cases hyi : y.id = i
    · rw [if_pos hyi] at hfy
      rw [← hfy]
      rfl
    · rw [if_neg hyi] at hfy
      exact absurd (hfy ▸ hxid) hyi
  refine ⟨List.length_map .., ?_, rfl, rfl, rfl, rfl, rfl, ?_, ?_⟩
  · exact List.mem_map.mpr ⟨e, he, by rw [if_pos hid]⟩
  · intro x hx hxi
    exact List.mem_map.mpr ⟨x, hx, by rw [if_neg hxi]⟩
  · intro env resized win s hs
    constructor
    · intro x hx hxid
      rw [vulkan_loop_registry, hs, List.mem_filter] at hx
      have := hkey x hx.1 hxid
      rw [Entity.read_flags, this] at hx
      exact absurd hx.2 (by simp)
    · intro e2 p hmem he2id
      obtain ⟨hin, hu, _, _⟩ := vulkan_loop_draw_event hmem
      rw [hs] at hin
      rw [hkey e2 hin he2id] at hu
      exact absurd hu (by simp)

theorem drop_handle_soft_delete_witness :
    (drop_handle [mk_entity 0 EntityKind.sprite 1] 0).length = 1 ∧
      (mk_entity 0 EntityKind.sprite 1).set_dead ∈
        drop_handle [mk_entity 0 EntityKind.sprite 1] 0 :=
  ⟨(@drop_handle_soft_delete [mk_entity 0 EntityKind.sprite 1] 0
        (mk_entity 0 EntityKind.sprite 1) (by decide) (by decide)).1,
    (@drop_handle_soft_delete [mk_entity 0 EntityKind.sprite 1] 0
        (mk_entity 0 EntityKind.sprite 1) (by decide) (by decide)).2.1⟩

/-- C4 counterexample: a visible primitive entity is drawn with the pipeline
named `"Sprite"`, not `"Primitive"` — `Primitive::draw` calls
`get_pipeline("Sprite")` — refuting that every entity binds the pipeline of
its own kind name. -/
theorem primitive_draw_pipeline_counterexample :
    prim_entity.kind = EntityKind.primitive ∧
      Event.draw prim_entity "Sprite" ∈
        (vulkan_loop ex_env_ok false (800, 600) prim_state).events ∧
      Event.draw prim_entity "Primitive" ∉
        (vulkan_loop ex_env_ok false (800, 600) prim_state).events := by
  decide

/-- C4 (amended).  Every draw call recorded for a visible entity binds the
pipeline named `"Sprite"`, for sprite and primitive entities alike, and a
pipeline lookup with a name that was never registered is a fatal error
(panic). -/
theorem draws_bind_sprite_and_unknown_panics :
    (∀ (env : Env) (resized : Bool) (win : Nat × Nat) (s : GraphicsState)
        (e : Entity) (p : String),
      Event.draw e p ∈ (vulkan_loop env resized win s).events →
        p = "Sprite") ∧
    ∀ (ps : List String) (name : String), name ∉ ps →
      get_pipeline ps name = none := by
  constructor
  · intro env resized win s e p h
    unfold vulkan_loop at h
    simp only at h
    split at h
    · simp at h
    · simp at h
    · exact (acquire_and_render_draw_event h).2.2
  · intro ps name h
    exact get_pipeline_not_mem h

theorem draws_bind_sprite_and_unknown_panics_witness :
    "Sprite" = "Sprite" ∧ get_pipeline initial_pipelines "Circle" = none :=
  ⟨draws_bind_sprite_and_unknown_panics.1 ex_env_ok false (800, 600) ex_state
      (mk_entity 0 EntityKind.sprite 1) "Sprite" (by decide),
    draws_bind_sprite_and_unknown_panics.2 initial_pipelines "Circle"
      (by decide)⟩

/-! ## Stable z-ordering of the registry (C2) -/

theorem z_creation_order_le {a b : Entity} (h : z_creation_order a b) :
    a.get_z_index ≤ b.get_z_index := by
  rcases h with h | ⟨h, _⟩
  · exact Nat.le_of_lt h
  · exact Nat.le_of_eq h

theorem mem_insert_after_ties {x y : Entity} {l : List Entity} :
    y ∈ insert_after_ties x l ↔ y = x ∨ y ∈ l := by
  induction l with
  | nil => simp [insert_after_ties]
  | cons z zs ih =>
    simp only [insert_after_ties]
    split
    · simp only [List.mem_cons, ih]
      tauto
    · simp only [List.mem_cons, ih]

/-- Pushing a new entity at the end of a z-sorted vector and stable-sorting
places it exactly after all entities of z-index at most its own. -/
theorem sort_append_last {l : List Entity} (x : Entity)
    (hl : l.Sorted (fun a b : Entity => a.get_z_index ≤ b.get_z_index)) :
    sort_draw_objects (l ++ [x]) = insert_after_ties x l := by
  induction l with
  | nil => rfl
  | cons a l' ih =>
    have hrel := List.rel_of_sorted_cons hl
    have hl' : l'.Sorted (fun a b : Entity => a.get_z_index ≤ b.get_z_index) :=
      hl.of_cons
    have hstep : sort_draw_objects ((a :: l') ++ [x]) =
        List.orderedInsert (fun a b : Entity => a.get_z_index ≤ b.get_z_index)
          a (sort_draw_objects (l' ++ [x])) := rfl
    rw [hstep, ih hl']
    by_cases hax : a.get_z_index ≤ x.get_z_index
    · have hrhs : insert_after_ties x (a :: l') =
          a :: insert_after_ties x l' := by
        simp only [insert_after_ties]
        rw [if_pos hax]
      rw [hrhs]
      cases l' with
      | nil =>
        simp only [insert_after_ties]
        exact List.orderedInsert_of_le _ _ hax
      | cons y ys =>
        simp only [insert_after_ties]
        by_cases hyx : y.get_z_index ≤ x.get_z_index
        · rw [if_pos hyx]
          exact List.orderedInsert_of_le _ _ (hrel y (List.mem_cons_self y ys))
        · rw [if_neg hyx]
          exact List.orderedInsert_of_le _ _ hax
    · have hrhs : insert_after_ties x (a :: l') = x :: a :: l' := by
        simp only [insert_after_ties]
        rw [if_neg hax]
      rw [hrhs]
      have hfl : insert_after_ties x l' = x :: l' := by
        cases l' with
        | nil => rfl
        | cons y ys =>
          simp only [insert_after_ties]
          rw [if_neg]
          intro hyx
          exact hax (le_trans (hrel y (List.mem_cons_self y ys)) hyx)
      rw [hfl]
      cases l' with
      | nil => simp [hax]
      | cons y ys => simp [hax, hrel y (List.mem_cons_self y ys)]

/-- Inserting an entity with a fresh (largest) creation id after its z-ties
preserves the z-then-creation pairwise order. -/
theorem insert_after_ties_pairwise {x : Entity} {l : List Entity}
    (hp : l.Pairwise z_creation_order) (hid : ∀ y ∈ l, y.id < x.id) :
    (insert_after_ties x l).Pairwise z_creation_order := by
  induction l with
  | nil => simp [insert_after_ties]
  | cons y ys ih =>
    simp only [insert_after_ties]
    by_cases hyx : y.get_z_index ≤ x.get_z_index
    · rw [if_pos hyx]
      rw [List.pairwise_cons] at hp ⊢
      constructor
      · intro b hb
        rw [mem_insert_after_ties] at hb
        rcases hb with rfl | hb
        · rcases Nat.lt_or_ge y.get_z_index b.get_z_index with h | h
          · exact Or.inl h
          · exact Or.inr ⟨Nat.le_antisymm hyx h,
              hid y (List.mem_cons_self y ys)⟩
        · exact hp.1 b hb
      · exact ih hp.2 (fun z hz => hid z (List.mem_cons_of_mem _ hz))
    · rw [if_neg hyx]
      have hxy : x.get_z_index < y.get_z_index := Nat.lt_of_not_le hyx
      rw [List.pairwise_cons]
      refine ⟨?_, hp⟩
      intro b hb
      rcases List.mem_cons.mp hb with rfl | hb
      · exact Or.inl hxy
      · exact Or.inl (Nat.lt_of_lt_of_le hxy
          (z_creation_order_le (List.rel_of_pairwise_cons hp hb)))

/-- Invariant of the creation loop: starting from a z-then-creation ordered
registry whose ids are below the creation counter, every sequence of
creations keeps the registry ordered, and its contents are exactly the old
registry plus the created entities. -/
theorem build_registry_invariant :
    ∀ (zs : List (EntityKind × Nat)) (n : Nat) (acc : List Entity),
      acc.Pairwise z_creation_order → (∀ y ∈ acc, y.id < n) →
      (build_registry n zs acc).Pairwise z_creation_order ∧
        (build_registry n zs acc).Perm (acc ++ created_entities n zs)
  | [], _, acc, hp, _ => ⟨hp, by simp [build_registry, created_entities]⟩
  | z :: zs, n, acc, hp, hid => by
    have hsorted : acc.Sorted
        (fun a b : Entity => a.get_z_index ≤ b.get_z_index) :=
      hp.imp z_creation_order_le
    have happ : append_draw_object acc (mk_entity n z.1 z.2) =
        insert_after_ties (mk_entity n z.1 z.2) acc :=
      sort_append_last _ hsorted
    have hp' : (append_draw_object acc (mk_entity n z.1 z.2)).Pairwise
        z_creation_order := by
      rw [happ]
      exact insert_after_ties_pairwise hp hid
    have hidnew : ∀ y ∈ append_draw_object acc (mk_entity n z.1 z.2),
        y.id < n + 1 := by
      intro y hy
      rw [happ, mem_insert_after_ties] at hy
      rcases hy with rfl | hy
      · exact Nat.lt_succ_self n
      · exact Nat.lt_succ_of_lt (hid y hy)
    have hstep : build_registry n (z :: zs) acc =
        build_registry (n + 1) zs
          (append_draw_object acc (mk_entity n z.1 z.2)) := rfl
    obtain ⟨h1, h2⟩ := build_registry_invariant zs (n + 1) _ hp' hidnew
    refine ⟨hstep ▸ h1, ?_⟩
    rw [hstep]
    have hperm : (append_draw_object acc (mk_entity n z.1 z.2)).Perm
        (acc ++ [mk_entity n z.1 z.2]) :=
      List.perm_insertionSort _ _
    have heq : acc ++ created_entities n (z :: zs) =
        (acc ++ [mk_entity n z.1 z.2]) ++ created_entities (n + 1) zs := by
      simp [created_entities]
    rw [heq]
    exact h2.trans (hperm.append_right _)

/-- C2.  After any sequence of entity creations, the registry is sorted
non-decreasing in z-index, entities of equal z-index appear in creation
order (the per-insertion sort is stable), and the registry holds exactly the
created entities. -/
theorem registry_sorted_stable (zs : List (EntityKind × Nat)) :
    (build_registry 0 zs []).Pairwise z_creation_order ∧
      (build_registry 0 zs []).Sorted
        (fun a b : Entity => a.get_z_index ≤ b.get_z_index) ∧
      (build_registry 0 zs []).Perm (created_entities 0 zs) := by
  obtain ⟨h1, h2⟩ := build_registry_invariant zs 0 [] List.Pairwise.nil
    (by simp)
  exact ⟨h1, h1.imp z_creation_order_le, by simpa using h2⟩

end Magma
